import Mathlib

/-!
Verification development for the Make MCP server (`src/index.ts` and the
unnamed sibling variant `unnamed/part_000`).  The TypeScript handlers are
shallowly embedded: network collaborators (the Make Automation API and the
Results API) are passed in as explicit environment values, thrown JS errors
become an explicit error type, and the two request handlers become pure Lean
functions returning `Except` plus a trace of which network calls were issued.
-/

/-- A JSON value as produced by `JSON.parse` / consumed by `JSON.stringify`.
Numbers are modelled as integers (the payloads relevant here carry integral
numbers; float formatting is outside the embedding). -/
inductive Json where
  | null : Json
  | bool : Bool → Json
  | num : Int → Json
  | str : String → Json
  | arr : List Json → Json
  | obj : List (String × Json) → Json

/-- Two-space indentation used by `JSON.stringify(v, null, 2)`. -/
def pad (n : Nat) : String := String.mk (List.replicate (2 * n) ' ')

/-- One hex digit, lowercase, as in JS `\u00XX` escapes. -/
def hexDigit (n : Nat) : String := String.mk [Nat.digitChar n]

/-- JSON string escaping as performed by `JSON.stringify` on one character. -/
def escapeChar (c : Char) : String :=
  if c = '"' then "\\\""
  else if c = '\\' then "\\\\"
  else if c = '\n' then "\\n"
  else if c = '\t' then "\\t"
  else if c = '\r' then "\\r"
  else if c = '\x08' then "\\b"
  else if c = '\x0c' then "\\f"
  else if c.toNat < 32 then "\\u00" ++ hexDigit (c.toNat / 16) ++ hexDigit (c.toNat % 16)
  else String.mk [c]

/-- A JSON string literal with quotes and escapes, as `JSON.stringify` emits. -/
def quoteJson (s : String) : String :=
  "\"" ++ String.join (s.data.map escapeChar) ++ "\""

mutual

/-- `JSON.stringify(v, null, 2)` at nesting depth `ind`: primitives inline,
nonempty arrays/objects open a line, indent members by one more level, and
close on a line indented at the current level. -/
def stringifyVal : Nat → Json → String
  | _, .null => "null"
  | _, .bool true => "true"
  | _, .bool false => "false"
  | _, .num n => toString n
  | _, .str s => quoteJson s
  | _, .arr [] => "[]"
  | ind, .arr (x :: xs) =>
      "[\n" ++ stringifyItems (ind + 1) (x :: xs) ++ "\n" ++ pad ind ++ "]"
  | _, .obj [] => "\x7b\x7d"
  | ind, .obj (f :: fs) =>
      "\x7b\n" ++ stringifyFields (ind + 1) (f :: fs) ++ "\n" ++ pad ind ++ "\x7d"

/-- Array members of `JSON.stringify`, each on its own indented line, joined
with `,\n`. -/
def stringifyItems : Nat → List Json → String
  | _, [] => ""
  | ind, [x] => pad ind ++ stringifyVal ind x
  | ind, x :: y :: xs =>
      pad ind ++ stringifyVal ind x ++ ",\n" ++ stringifyItems ind (y :: xs)

/-- Object members of `JSON.stringify`, `"key": value` per line, joined with
`,\n`; key order is the object's own (insertion) order, which is what makes
the serialization deterministic. -/
def stringifyFields : Nat → List (String × Json) → String
  | _, [] => ""
  | ind, [(k, v)] => pad ind ++ quoteJson k ++ ": " ++ stringifyVal ind v
  | ind, (k, v) :: f :: fs =>
      pad ind ++ quoteJson k ++ ": " ++ stringifyVal ind v ++ ",\n" ++
        stringifyFields ind (f :: fs)

end

/-- `JSON.stringify(v, null, 2)` — the serialization used on `output` values. -/
def stringify2 (v : Json) : String := stringifyVal 0 v

mutual

/-- JS `String(v)` for a JSON value, used when a value is interpolated into a
template literal. -/
def jsDisplay : Json → String
  | .null => "null"
  | .bool true => "true"
  | .bool false => "false"
  | .num n => toString n
  | .str s => s
  | .arr xs => jsDisplayItems xs
  | .obj _ => "[object Object]"

/-- JS array-to-string: elements joined by commas, `null` elements shown as
the empty string. -/
def jsDisplayItems : List Json → String
  | [] => ""
  | [.null] => ""
  | [x] => jsDisplay x
  | .null :: y :: xs => "," ++ jsDisplayItems (y :: xs)
  | x :: y :: xs => jsDisplay x ++ "," ++ jsDisplayItems (y :: xs)

end

/-- JS truthiness of a JSON value (used by `errorJson.error || errorDetail`
and by `scenario.description ? ... : ...`). -/
def jsTruthy : Json → Bool
  | .null => false
  | .bool b => b
  | .num n => n != 0
  | .str s => !s.isEmpty
  | .arr _ => true
  | .obj _ => true

/-- Property access `j.k` on a parsed JSON value: a key lookup on objects,
`undefined` (here `none`) on everything else. -/
def Json.getField (j : Json) (k : String) : Option Json :=
  match j with
  | .obj kvs => kvs.lookup k
  | _ => none

/-- The two MCP SDK error codes this server uses. -/
inductive ErrorCode where
  | InvalidRequest : ErrorCode
  | InternalError : ErrorCode
  deriving DecidableEq, Repr

/-- An `McpError` as thrown by the handlers.  The SDK class is external to
the repository, so it is modelled as its code plus the message string passed
to its constructor. -/
structure McpError where
  code : ErrorCode
  message : String
  deriving DecidableEq, Repr

/-- A thrown JS value as a `catch` block classifies it: an `McpError`, an
ordinary `Error` (carrying `.message`), or any other value (carried here
already converted by `String(...)`, since such values originate outside the
source). -/
inductive JsError where
  | mcp : ErrorCode → String → JsError
  | plain : String → JsError
  | other : String → JsError
  deriving DecidableEq, Repr

/-- JS `String(err)` for a thrown value: `Error` instances print as
`name: message`; the SDK's `McpError` subclass has name `McpError`. -/
def jsErrString : JsError → String
  | .mcp _ m => "McpError: " ++ m
  | .plain m => "Error: " ++ m
  | .other s => s

/-- A scenario's scheduling descriptor; its `type` distinguishes
`on-demand` from every other scheduling mode. -/
structure Scheduling where
  type : String
  deriving DecidableEq, Repr

/-- A Make scenario as returned by `make.scenarios.list`. -/
structure Scenario where
  id : Nat
  name : String
  description : Option String
  scheduling : Scheduling
  deriving DecidableEq, Repr

/-- Modelled from the spec: the Interface Descriptor shape (the repository's
`types.ts` is not among the provided sources).  A node has a `name`, a
`type` tag, and a nested list of child descriptor nodes (`spec`). -/
inductive Descriptor where
  | node : String → String → List Descriptor → Descriptor

/-- The `name` of a descriptor node. -/
def Descriptor.name : Descriptor → String
  | .node n _ _ => n

/-- The `type` tag of a descriptor node. -/
def Descriptor.type : Descriptor → String
  | .node _ t _ => t

/-- The child list (`spec`) of a descriptor node. -/
def Descriptor.spec : Descriptor → List Descriptor
  | .node _ _ s => s

/-- Modelled from the spec: the tool-call-protocol parameter schema tree
produced by the Schema Remapper. -/
inductive JsonSchema where
  | string : JsonSchema
  | number : JsonSchema
  | boolean : JsonSchema
  | array : JsonSchema → JsonSchema
  | object : List (String × JsonSchema) → JsonSchema

/-- Modelled from the spec: `UnsupportedTypeError` names the offending node
(its `name` and its unrecognized `type` tag). -/
structure UnsupportedTypeError where
  nodeName : String
  typeTag : String
  deriving DecidableEq, Repr

mutual

/-- Modelled from the spec: the recursive Schema Remapper `remap` (the
repository's `utils.ts` is not among the provided sources).  Recognized
type tags: `text` → string, `number` → number, `boolean` → boolean,
`array` → ordered sequence whose `items` schema is recursively derived from
the element spec, `collection` → keyed object whose properties are
recursively derived from the child specs; any other tag fails with an
`UnsupportedTypeError` naming the offending node. -/
def remap : Descriptor → Except UnsupportedTypeError JsonSchema
  | .node n t spec =>
    if t = "text" then .ok .string
    else if t = "number" then .ok .number
    else if t = "boolean" then .ok .boolean
    else if t = "array" then
      match remapChildren spec with
      | .error e => .error e
      | .ok props => .ok (.array (.object props))
    else if t = "collection" then
      match remapChildren spec with
      | .error e => .error e
      | .ok props => .ok (.object props)
    else .error ⟨n, t⟩

/-- Remap a child list in order, propagating the first failure. -/
def remapChildren : List Descriptor → Except UnsupportedTypeError (List (String × JsonSchema))
  | [] => .ok []
  | d :: ds =>
      match remap d with
      | .error e => .error e
      | .ok s =>
        match remapChildren ds with
        | .error e => .error e
        | .ok rest => .ok ((d.name, s) :: rest)

end

/-- The response shape of `make.scenarios.interface`: `{ input?: Descriptor[] }`. -/
structure Iface where
  input : Option (List Descriptor)

/-- Protocol-facing tool descriptor returned by discovery. -/
structure Tool where
  name : String
  description : String
  inputSchema : JsonSchema

/-- The Automation API as one discovery request observes it: the outcome of
`make.scenarios.list(teamId)` and, per scenario id, the outcome of
`make.scenarios.interface(id)`. -/
structure DiscoverEnv where
  listResult : Sum JsError (List Scenario)
  ifaceOf : Nat → Sum JsError Iface

/-- The tool name template `run_scenario_${scenario.id}` (a template literal
interpolates a number via its decimal representation). -/
def deriveToolName (id : Nat) : String := "run_scenario_" ++ Nat.repr id

/-- `scenario.name + (scenario.description ? \` (${scenario.description})\` : '')`;
an absent or empty description is falsy. -/
def toolDescription (sc : Scenario) : String :=
  sc.name ++ (match sc.description with
    | some d => if d.isEmpty then "" else " (" ++ d ++ ")"
    | none => "")

/-- The per-scenario body of the discovery fan-out: fetch the interface,
default a missing `input` to `[]`, remap under the synthetic `wrapper`
collection node; any failure inside (interface fetch or remap) is caught and
the scenario yields `null`. -/
def buildTool (env : DiscoverEnv) (sc : Scenario) : Option Tool :=
  match env.ifaceOf sc.id with
  | .inl _ => none
  | .inr iface =>
    match remap (.node "wrapper" "collection" (iface.input.getD [])) with
    | .error _ => none
    | .ok schema => some ⟨deriveToolName sc.id, toolDescription sc, schema⟩

/-- The `ListToolsRequestSchema` handler: list the team's scenarios, filter
to `scheduling.type === 'on-demand'`, build one tool per scenario (with
per-scenario failures yielding `null`), drop the `null`s; a failure of the
list call itself becomes an `InternalError` wrapping `String(error)`. -/
def discoverTools (env : DiscoverEnv) : Except McpError (List Tool) :=
  match env.listResult with
  | .inl e => .error ⟨.InternalError, "Failed to list Make scenarios: " ++ jsErrString e⟩
  | .inr scenarios =>
    let onDemandScenarios := scenarios.filter (fun sc => sc.scheduling.type == "on-demand")
    let tools := onDemandScenarios.map (fun sc => buildTool env sc)
    let validTools := tools.filterMap id
    .ok validTools

/-- Accumulator loop of decimal digit parsing: each digit character
contributes `code point - 48`. -/
def parseIntAcc : Nat → List Char → Nat
  | acc, [] => acc
  | acc, c :: cs => parseIntAcc (acc * 10 + (c.toNat - 48)) cs

/-- JS `parseInt` restricted to the all-digit strings its call sites are
guarded to receive by `/^run_scenario_\d+$/`: `some` of the decimal value on
a nonempty digit string, `none` (`NaN`) otherwise.  (Full `parseInt` also
accepts signs, whitespace and trailing garbage; under the regex guard the
semantics agree.) -/
def parseInt (s : String) : Option Nat :=
  if s.data.isEmpty then none
  else if s.data.all Char.isDigit then some (parseIntAcc 0 s.data)
  else none

/-- The regex test `/^run_scenario_\d+$/.test(name)`: exactly the
13-character fixed prefix followed by one or more ASCII digits and nothing
else. -/
def isValidToolName (name : String) : Bool :=
  name.data.take 13 == "run_scenario_".data
    && !(name.data.drop 13).isEmpty
    && (name.data.drop 13).all Char.isDigit

/-- `request.params.name.substring(13)` — everything after the fixed prefix. -/
def scenarioIdStr (name : String) : String := name.drop 13

/-- The invocation path's id extraction: `parseInt(name.substring(13))`. -/
def extractScenarioId (name : String) : Option Nat := parseInt (scenarioIdStr name)

/-- The response of `make.scenarios.run`: `{ executionId, status? }`. -/
structure RunResponse where
  executionId : String
  status : Option String
  deriving DecidableEq, Repr

/-- One HTTP response of the Results API as the handler observes it: the
`status`, the text body (`res.text()`), and the outcome of JSON-parsing that
body (`res.json()` / `JSON.parse`): a parse-error message or a value. -/
structure FetchResponse where
  status : Nat
  text : String
  json : Sum String Json

/-- `Response.ok`: HTTP status in the range 200–299. -/
def FetchResponse.ok (r : FetchResponse) : Bool :=
  decide (200 ≤ r.status) && decide (r.status < 300)

/-- The `errorDetail` computation on a non-ok response: start from the text
body; if it parses as JSON and its `error` member is truthy, use that member
(interpolated into the message via `String(...)`). -/
def errorDetail (r : FetchResponse) : String :=
  match r.json with
  | .inl _ => r.text
  | .inr j =>
    match j.getField "error" with
    | some v => if jsTruthy v then jsDisplay v else r.text
    | none => r.text

/-- What the two network calls of one invocation would deliver: the outcome
of `make.scenarios.run` and the outcome of `fetch(retrieveUrl)` (a thrown
network error, or a response). -/
structure InvokeEnv where
  runResult : Sum JsError RunResponse
  fetchResult : Sum JsError FetchResponse

/-- Which of the two network calls an invocation actually issued. -/
structure Trace where
  triggered : Bool
  fetched : Bool
  deriving DecidableEq, Repr

/-- The `catch` block shared by both handler variants: take the thrown
value's message (the initial `Tool call failed for ...` text is overwritten
on every branch), append ` (Make Execution ID: ...)` when a non-empty
execution id is known, and rethrow as an `McpError`, preserving an
`McpError`'s code and using `InternalError` otherwise. -/
def catchWrap (executionId : String) (err : JsError) : McpError :=
  let errorMessage :=
    match err with
    | .mcp _ m => m
    | .plain m => m
    | .other s => "An unknown error occurred: " ++ s
  let errorMessage :=
    if executionId.isEmpty then errorMessage
    else errorMessage ++ " (Make Execution ID: " ++ executionId ++ ")"
  let code :=
    match err with
    | .mcp c _ => c
    | .plain _ => ErrorCode.InternalError
    | .other _ => ErrorCode.InternalError
  ⟨code, errorMessage⟩

/-- The message of the `McpError` thrown for a non-ok Results API response;
status 404 gets the distinguished "not found or expired" wording but the
same error kind. -/
def retrieveFailureMsg (executionId : String) (r : FetchResponse) : String :=
  if r.status == 404 then
    "Failed to retrieve results for execution ID " ++ executionId ++
      ": Result not found or expired (404). Detail: " ++ errorDetail r
  else
    "Failed to retrieve results for execution ID " ++ executionId ++
      ". Status: " ++ Nat.repr r.status ++ ". Detail: " ++ errorDetail r

/-- `${makeInternalStatus || 'Unknown'}`: an absent or empty status
displays as `Unknown`. -/
def statusDisplay : Option String → String
  | some s => if s.isEmpty then "Unknown" else s
  | none => "Unknown"

/-- Success-path output normalization of the `src/index.ts` variant:
`retrievedData.output !== undefined ? JSON.stringify(retrievedData.output,
null, 2) : '(No output data received from results API)'`. -/
def normalizeOutputSrc (output : Option Json) : String :=
  match output with
  | some v => stringify2 v
  | none => "(No output data received from results API)"

/-- Success-path output normalization of the `unnamed/part_000` variant:
absent or `null` output → the placeholder, a string → itself verbatim,
anything else → `JSON.stringify(retrievedData.output, null, 2)`. -/
def normalizeOutputPart (output : Option Json) : String :=
  match output with
  | none => "(No output data received from results API)"
  | some .null => "(No output data received from results API)"
  | some (.str s) => s
  | some v => stringify2 v

/-- The result-retrieval phase shared by both variants, parameterized by the
output normalization: a non-ok status throws the retrieval `McpError`, an
unparseable body on a success status throws the JSON parse error, and a
parsed body is normalized via its `output` member. -/
def retrievePhase (normalize : Option Json → String) (executionId : String)
    (r : FetchResponse) : Sum JsError String :=
  if r.ok then
    match r.json with
    | .inl parseErr => .inl (.plain parseErr)
    | .inr j => .inr (normalize (j.getField "output"))
  else .inl (.mcp .InternalError (retrieveFailureMsg executionId r))

/-- `{ toolResult }` returned on success. -/
structure CallResult where
  toolResult : String
  deriving DecidableEq, Repr

/-- The `CallToolRequestSchema` handler of `src/index.ts`: regex-validate the
tool name (an invalid name becomes `InvalidRequest` with no network call),
trigger the run, gate on the run's `status` being `COMPLETED` or `OK` (a
failing gate throws before the results fetch), fetch the results, and
normalize the output; every throw inside the `try` is rewrapped by the
`catch`.  Returns the outcome together with which network calls ran. -/
def invokeSrc (name : String) (env : InvokeEnv) : Except McpError CallResult × Trace :=
  if isValidToolName name then
    match env.runResult with
    | .inl e => (.error (catchWrap "" e), ⟨true, false⟩)
    | .inr runResponse =>
      let executionId := runResponse.executionId
      if runResponse.status != some "COMPLETED" && runResponse.status != some "OK" then
        (.error (catchWrap executionId (.mcp .InternalError
          ("Make scenario execution failed internally with status: " ++
            statusDisplay runResponse.status ++ ". Execution ID: " ++ executionId))),
         ⟨true, false⟩)
      else
        match env.fetchResult with
        | .inl e => (.error (catchWrap executionId e), ⟨true, true⟩)
        | .inr r =>
          match retrievePhase normalizeOutputSrc executionId r with
          | .inl e => (.error (catchWrap executionId e), ⟨true, true⟩)
          | .inr out => (.ok ⟨out⟩, ⟨true, true⟩)
  else (.error ⟨.InvalidRequest, "Unknown tool: " ++ name⟩, ⟨false, false⟩)

/-- The `CallToolRequestSchema` handler of `unnamed/part_000`: identical to
the `src/index.ts` variant except that there is no run-status gate (a
successful trigger always proceeds to the results fetch) and the output
normalization treats `null` and string outputs specially. -/
def invokePart (name : String) (env : InvokeEnv) : Except McpError CallResult × Trace :=
  if isValidToolName name then
    match env.runResult with
    | .inl e => (.error (catchWrap "" e), ⟨true, false⟩)
    | .inr runResponse =>
      let executionId := runResponse.executionId
      match env.fetchResult with
      | .inl e => (.error (catchWrap executionId e), ⟨true, true⟩)
      | .inr r =>
        match retrievePhase normalizeOutputPart executionId r with
        | .inl e => (.error (catchWrap executionId e), ⟨true, true⟩)
        | .inr out => (.ok ⟨out⟩, ⟨true, true⟩)
  else (.error ⟨.InvalidRequest, "Unknown tool: " ++ name⟩, ⟨false, false⟩)

/-- Decimal digit characters of `n`, most significant first; the list
`Nat.toDigitsCore` produces when given enough fuel. -/
def natDigits (n : Nat) : List Char :=
  if h : n / 10 = 0 then [Nat.digitChar (n % 10)]
  else natDigits (n / 10) ++ [Nat.digitChar (n % 10)]
termination_by n
decreasing_by
  exact Nat.div_lt_self (Nat.pos_of_ne_zero (fun hn => h (by simp [hn]))) (by omega)

theorem digitChar_isDigit : ∀ d, d < 10 → (Nat.digitChar d).isDigit = true := by decide

theorem digitChar_val : ∀ d, d < 10 → (Nat.digitChar d).toNat - 48 = d := by decide

theorem toDigitsCore_eq_natDigits :
    ∀ (fuel n : Nat) (acc : List Char), n < fuel →
      Nat.toDigitsCore 10 fuel n acc = natDigits n ++ acc := by
  intro fuel
  induction fuel with
  | zero => intro n acc h; omega
  | succ f ih =>
    intro n acc h
    rw [Nat.toDigitsCore, natDigits]
    by_cases h10 : n / 10 = 0
    · simp [h10]
    · have hpos : 0 < n := Nat.pos_of_ne_zero (fun hn => h10 (by simp [hn]))
      have hlt : n / 10 < n := Nat.div_lt_self hpos (by omega)
      rw [dif_neg h10, if_neg h10, ih (n / 10) _ (by omega)]
      simp

theorem repr_data_eq_natDigits (n : Nat) : (Nat.repr n).data = natDigits n := by
  show (Nat.toDigits 10 n).asString.data = natDigits n
  rw [Nat.toDigits, toDigitsCore_eq_natDigits (n + 1) n [] (Nat.lt_succ_self n)]
  simp [List.asString]

theorem natDigits_ne_nil (n : Nat) : natDigits n ≠ [] := by
  rw [natDigits]
  split <;> simp

theorem natDigits_all_digits (n : Nat) : (natDigits n).all Char.isDigit = true := by
  induction n using Nat.strong_induction_on with
  | _ n ih =>
    have hm : n % 10 < 10 := Nat.mod_lt n (by omega)
    rw [natDigits]
    split
    · simp [digitChar_isDigit (n % 10) hm]
    · rename_i h10
      have hpos : 0 < n := Nat.pos_of_ne_zero (fun hn => h10 (by simp [hn]))
      simp [List.all_append, ih (n / 10) (Nat.div_lt_self hpos (by omega)),
        digitChar_isDigit (n % 10) hm]

theorem parseIntAcc_append (l1 l2 : List Char) :
    ∀ acc, parseIntAcc acc (l1 ++ l2) = parseIntAcc (parseIntAcc acc l1) l2 := by
  induction l1 with
  | nil => intro acc; rfl
  | cons c cs ih =>
    intro acc
    show parseIntAcc (acc * 10 + (c.toNat - 48)) (cs ++ l2)
        = parseIntAcc (parseIntAcc (acc * 10 + (c.toNat - 48)) cs) l2
    exact ih _

theorem parseIntAcc_natDigits (n : Nat) :
    ∀ acc, parseIntAcc acc (natDigits n) = acc * 10 ^ (natDigits n).length + n := by
  induction n using Nat.strong_induction_on with
  | _ n ih =>
    intro acc
    have hm : n % 10 < 10 := Nat.mod_lt n (by omega)
    rw [natDigits]
    split
    · rename_i h10
      have hmod : n % 10 = n := by omega
      have hstep : parseIntAcc acc [Nat.digitChar (n % 10)]
          = acc * 10 + ((Nat.digitChar (n % 10)).toNat - 48) := rfl
      rw [hstep, digitChar_val (n % 10) hm, hmod,
        show ([Nat.digitChar n]).length = 1 from rfl, pow_one]
    · rename_i h10
      have hpos : 0 < n := Nat.pos_of_ne_zero (fun hn => h10 (by simp [hn]))
      rw [parseIntAcc_append, ih (n / 10) (Nat.div_lt_self hpos (by omega)) acc]
      have hone : parseIntAcc (acc * 10 ^ (natDigits (n / 10)).length + n / 10)
          [Nat.digitChar (n % 10)]
          = (acc * 10 ^ (natDigits (n / 10)).length + n / 10) * 10 + n % 10 := by
        show (acc * 10 ^ (natDigits (n / 10)).length + n / 10) * 10 +
            ((Nat.digitChar (n % 10)).toNat - 48)
          = (acc * 10 ^ (natDigits (n / 10)).length + n / 10) * 10 + n % 10
        rw [digitChar_val (n % 10) hm]
      rw [hone, List.length_append]
      have hdm : 10 * (n / 10) + n % 10 = n := Nat.div_add_mod n 10
      have hcast : (acc * 10 ^ (natDigits (n / 10)).length + n / 10) * 10 + n % 10
          = acc * (10 ^ (natDigits (n / 10)).length * 10) + (10 * (n / 10) + n % 10) := by
        ring
      rw [hcast, hdm]
      have hlen : (natDigits (n / 10)).length + [Nat.digitChar (n % 10)].length
          = (natDigits (n / 10)).length + 1 := by simp
      rw [hlen, pow_succ]

theorem parseInt_repr (n : Nat) : parseInt (Nat.repr n) = some n := by
  rw [parseInt]
  rw [repr_data_eq_natDigits]
  rw [if_neg (by simp [natDigits_ne_nil n]), if_pos (natDigits_all_digits n)]
  rw [parseIntAcc_natDigits n 0]
  simp

theorem deriveToolName_data (n : Nat) :
    (deriveToolName n).data = "run_scenario_".data ++ natDigits n := by
  rw [deriveToolName, String.data_append, repr_data_eq_natDigits]

theorem parseInt_data_congr {s t : String} (h : s.data = t.data) :
    parseInt s = parseInt t := by
  rw [parseInt, parseInt, h]

theorem parseInt_mk_natDigits (n : Nat) : parseInt ⟨natDigits n⟩ = some n := by
  rw [parseInt_data_congr (show (⟨natDigits n⟩ : String).data = (Nat.repr n).data by
    rw [repr_data_eq_natDigits])]
  exact parseInt_repr n

theorem run_scenario_data_length : "run_scenario_".data.length = 13 := by decide

theorem scenarioIdStr_deriveToolName (n : Nat) :
    scenarioIdStr (deriveToolName n) = ⟨natDigits n⟩ := by
  rw [scenarioIdStr, String.drop_eq]
  show (⟨(deriveToolName n).data.drop 13⟩ : String) = ⟨natDigits n⟩
  rw [deriveToolName_data, List.drop_left' run_scenario_data_length]

theorem extract_deriveToolName (n : Nat) :
    extractScenarioId (deriveToolName n) = some n := by
  rw [extractScenarioId, scenarioIdStr_deriveToolName, parseInt_mk_natDigits]

theorem deriveToolName_inj {a b : Nat} (h : deriveToolName a = deriveToolName b) :
    a = b := by
  have ha := extract_deriveToolName a
  rw [h, extract_deriveToolName b] at ha
  exact (Option.some_inj.mp ha).symm

theorem isValid_deriveToolName (n : Nat) :
    isValidToolName (deriveToolName n) = true := by
  rw [isValidToolName, deriveToolName_data,
    List.take_left' run_scenario_data_length, List.drop_left' run_scenario_data_length]
  simp [natDigits_ne_nil n, natDigits_all_digits n, List.isEmpty_iff]

theorem filterMap_id_map_filter {α β : Type} (p : α → Bool) (f : α → Option β) :
    ∀ l : List α, ((l.filter p).map f).filterMap id
      = l.filterMap (fun a => if p a then f a else none) := by
  intro l
  induction l with
  | nil => rfl
  | cons a l ih =>
    by_cases h : p a
    · cases hfa : f a <;>
        simp [List.filter_cons, h, List.filterMap_cons, hfa, ih]
    · simp [List.filter_cons, h, ih]

theorem discoverTools_char (env : DiscoverEnv) (ss : List Scenario)
    (h : env.listResult = .inr ss) :
    discoverTools env = .ok (ss.filterMap (fun sc =>
      if sc.scheduling.type = "on-demand" then buildTool env sc else none)) := by
  simp only [discoverTools, h]
  rw [filterMap_id_map_filter]
  have hfun : (fun sc : Scenario =>
      if (sc.scheduling.type == "on-demand") = true then buildTool env sc else none)
      = fun sc : Scenario =>
      if sc.scheduling.type = "on-demand" then buildTool env sc else none := by
    funext sc
    by_cases hsc : sc.scheduling.type = "on-demand" <;> simp [hsc]
  rw [hfun]

theorem buildTool_name (env : DiscoverEnv) (sc : Scenario) (t : Tool)
    (h : buildTool env sc = some t) : t.name = deriveToolName sc.id := by
  unfold buildTool at h
  split at h
  · simp at h
  · split at h
    · simp at h
    · injection h with h
      rw [← h]

/-- Claim C2: for every list-tools request over any listed scenario sequence,
the returned tools are exactly the scenarios with scheduling type
`on-demand` whose interface fetch and remap succeed (`buildTool` returns
`some`), in the same relative order as the listed sequence; any other
scheduling type never contributes a tool.  All of this is captured by the
in-order `filterMap` characterization of the handler's result. -/
theorem c2_discovery_filter_order (env : DiscoverEnv) (ss : List Scenario)
    (h : env.listResult = .inr ss) :
    discoverTools env = .ok (ss.filterMap (fun sc =>
      if sc.scheduling.type = "on-demand" then buildTool env sc else none)) :=
  discoverTools_char env ss h

/-- Witness for C2 at the spec's example `{A: on-demand, B: scheduled,
C: on-demand}` with all interface fetches succeeding. -/
theorem c2_discovery_filter_order_witness :
    (⟨.inr [⟨1, "A", none, ⟨"on-demand"⟩⟩, ⟨2, "B", none, ⟨"scheduled"⟩⟩,
        ⟨3, "C", none, ⟨"on-demand"⟩⟩], fun _ => .inr ⟨some []⟩⟩ :
      DiscoverEnv).listResult = .inr [⟨1, "A", none, ⟨"on-demand"⟩⟩,
        ⟨2, "B", none, ⟨"scheduled"⟩⟩, ⟨3, "C", none, ⟨"on-demand"⟩⟩]
    ∧ discoverTools (⟨.inr [⟨1, "A", none, ⟨"on-demand"⟩⟩,
        ⟨2, "B", none, ⟨"scheduled"⟩⟩, ⟨3, "C", none, ⟨"on-demand"⟩⟩],
        fun _ => .inr ⟨some []⟩⟩ : DiscoverEnv)
      = .ok ([⟨1, "A", none, ⟨"on-demand"⟩⟩, ⟨2, "B", none, ⟨"scheduled"⟩⟩,
          ⟨3, "C", none, ⟨"on-demand"⟩⟩].filterMap (fun sc =>
        if sc.scheduling.type = "on-demand"
        then buildTool (⟨.inr [⟨1, "A", none, ⟨"on-demand"⟩⟩,
          ⟨2, "B", none, ⟨"scheduled"⟩⟩, ⟨3, "C", none, ⟨"on-demand"⟩⟩],
          fun _ => .inr ⟨some []⟩⟩ : DiscoverEnv) sc else none)) :=
  ⟨rfl, c2_discovery_filter_order _ _ rfl⟩

/-- Claim C4: when listing succeeds, a per-scenario interface/remap failure
never aborts discovery (the handler still returns `.ok`), every other
on-demand scenario still yields its tool in the result, and a failing
scenario is absent (no returned tool bears its derived name, given that
scenario ids are unique as the spec guarantees). -/
theorem c4_isolated_failures (env : DiscoverEnv) (ss : List Scenario)
    (hlist : env.listResult = .inr ss)
    (huniq : ∀ a ∈ ss, ∀ b ∈ ss, a.id = b.id → a = b) :
    ∃ ts, discoverTools env = .ok ts
      ∧ (∀ sc ∈ ss, sc.scheduling.type = "on-demand" →
          ∀ t, buildTool env sc = some t → t ∈ ts)
      ∧ (∀ sc ∈ ss, sc.scheduling.type = "on-demand" → buildTool env sc = none →
          ∀ t ∈ ts, t.name ≠ deriveToolName sc.id) := by
  refine ⟨_, discoverTools_char env ss hlist, ?_, ?_⟩
  · intro sc hmem hty t hbt
    exact List.mem_filterMap.mpr ⟨sc, hmem, by rw [if_pos hty]; exact hbt⟩
  · intro sc hmem hty hnone t htmem heq
    obtain ⟨sc', hmem', heq'⟩ := List.mem_filterMap.mp htmem
    by_cases hty' : sc'.scheduling.type = "on-demand"
    · rw [if_pos hty'] at heq'
      have hname := buildTool_name env sc' t heq'
      have hid := deriveToolName_inj (hname.symm.trans heq)
      rw [huniq sc' hmem' sc hmem hid, hnone] at heq'
      cases heq'
    · rw [if_neg hty'] at heq'
      cases heq'

/-- Witness for C4: scenario A succeeds, scenario C's interface fetch throws
a network error. -/
theorem c4_isolated_failures_witness :
    (⟨.inr [⟨1, "A", none, ⟨"on-demand"⟩⟩, ⟨2, "C", none, ⟨"on-demand"⟩⟩],
        fun i => if i = 1 then .inr ⟨some []⟩ else .inl (.plain "network error")⟩ :
      DiscoverEnv).listResult
      = .inr [⟨1, "A", none, ⟨"on-demand"⟩⟩, ⟨2, "C", none, ⟨"on-demand"⟩⟩]
    ∧ (∀ a ∈ [(⟨1, "A", none, ⟨"on-demand"⟩⟩ : Scenario),
          ⟨2, "C", none, ⟨"on-demand"⟩⟩],
        ∀ b ∈ [(⟨1, "A", none, ⟨"on-demand"⟩⟩ : Scenario),
          ⟨2, "C", none, ⟨"on-demand"⟩⟩], a.id = b.id → a = b)
    ∧ ∃ ts, discoverTools (⟨.inr [⟨1, "A", none, ⟨"on-demand"⟩⟩,
          ⟨2, "C", none, ⟨"on-demand"⟩⟩],
          fun i => if i = 1 then .inr ⟨some []⟩ else .inl (.plain "network error")⟩ :
        DiscoverEnv) = .ok ts
      ∧ (∀ sc ∈ [(⟨1, "A", none, ⟨"on-demand"⟩⟩ : Scenario),
            ⟨2, "C", none, ⟨"on-demand"⟩⟩], sc.scheduling.type = "on-demand" →
          ∀ t, buildTool (⟨.inr [⟨1, "A", none, ⟨"on-demand"⟩⟩,
            ⟨2, "C", none, ⟨"on-demand"⟩⟩],
            fun i => if i = 1 then .inr ⟨some []⟩ else .inl (.plain "network error")⟩ :
            DiscoverEnv) sc = some t → t ∈ ts)
      ∧ (∀ sc ∈ [(⟨1, "A", none, ⟨"on-demand"⟩⟩ : Scenario),
            ⟨2, "C", none, ⟨"on-demand"⟩⟩], sc.scheduling.type = "on-demand" →
          buildTool (⟨.inr [⟨1, "A", none, ⟨"on-demand"⟩⟩,
            ⟨2, "C", none, ⟨"on-demand"⟩⟩],
            fun i => if i = 1 then .inr ⟨some []⟩ else .inl (.plain "network error")⟩ :
            DiscoverEnv) sc = none →
          ∀ t ∈ ts, t.name ≠ deriveToolName sc.id) :=
  ⟨rfl, by decide, c4_isolated_failures _ _ rfl (by decide)⟩

/-- Claim C7: if listing the scenarios itself throws, the whole discovery
operation fails with an `InternalError` wrapping `String(error)`, and no
partial tool list is returned (the result is the error, not an `.ok`). -/
theorem c7_list_failure (env : DiscoverEnv) (e : JsError)
    (h : env.listResult = .inl e) :
    discoverTools env = .error ⟨.InternalError,
      "Failed to list Make scenarios: " ++ jsErrString e⟩ := by
  simp only [discoverTools, h]

/-- Witness for C7: the list call throws `Error: boom`. -/
theorem c7_list_failure_witness :
    (⟨.inl (.plain "boom"), fun _ => .inr ⟨some []⟩⟩ : DiscoverEnv).listResult
      = .inl (.plain "boom")
    ∧ discoverTools (⟨.inl (.plain "boom"), fun _ => .inr ⟨some []⟩⟩ : DiscoverEnv)
      = .error ⟨.InternalError,
          "Failed to list Make scenarios: " ++ jsErrString (.plain "boom")⟩ :=
  ⟨rfl, c7_list_failure _ _ rfl⟩

/-- Claim C8: the discovery path derives the tool name as the fixed prefix
`run_scenario_` concatenated with the decimal representation of the
scenario's numeric id, that name passes the invocation path's regex, and the
invocation path's extraction (drop the 13-character prefix, `parseInt` the
remainder) recovers the id. -/
theorem c8_name_roundtrip (n : Nat) :
    deriveToolName n = "run_scenario_" ++ Nat.repr n
    ∧ isValidToolName (deriveToolName n) = true
    ∧ extractScenarioId (deriveToolName n) = some n :=
  ⟨rfl, isValid_deriveToolName n, extract_deriveToolName n⟩

/-- Claim C9 (spec-modelled `remap`): a descriptor node whose type tag is
outside the recognized vocabulary makes `remap` fail with an
`UnsupportedTypeError` naming the offending node; and no field is ever
silently dropped: whenever a child list remaps successfully, every child
remapped successfully. -/
theorem c9_unsupported_type (n t : String) (spec : List Descriptor)
    (h1 : t ≠ "text") (h2 : t ≠ "number") (h3 : t ≠ "boolean")
    (h4 : t ≠ "array") (h5 : t ≠ "collection") :
    remap (.node n t spec) = .error ⟨n, t⟩
    ∧ ∀ (ds : List Descriptor) (props : List (String × JsonSchema)),
        remapChildren ds = .ok props → ∀ d ∈ ds, ∃ s, remap d = .ok s := by
  constructor
  · simp [remap, h1, h2, h3, h4, h5]
  · intro ds
    induction ds with
    | nil =>
      intro props _ d hd
      simp at hd
    | cons d0 ds ih =>
      intro props hok d hd
      simp only [remapChildren] at hok
      rcases List.mem_cons.mp hd with rfl | hmem
      · cases hr : remap d with
        | error e => rw [hr] at hok; simp at hok
        | ok s => exact ⟨s, rfl⟩
      · cases hr : remap d0 with
        | error e => rw [hr] at hok; simp at hok
        | ok s =>
          rw [hr] at hok
          cases hrest : remapChildren ds with
          | error e => rw [hrest] at hok; simp at hok
          | ok rest => exact ih rest hrest d hmem

/-- Witness for C9 at the unrecognized tag `banana`. -/
theorem c9_unsupported_type_witness :
    ("banana" ≠ "text" ∧ "banana" ≠ "number" ∧ "banana" ≠ "boolean" ∧
      "banana" ≠ "array" ∧ "banana" ≠ "collection")
    ∧ (remap (.node "field1" "banana" []) = .error ⟨"field1", "banana"⟩
    ∧ ∀ (ds : List Descriptor) (props : List (String × JsonSchema)),
        remapChildren ds = .ok props → ∀ d ∈ ds, ∃ s, remap d = .ok s) :=
  ⟨⟨by decide, by decide, by decide, by decide, by decide⟩,
    c9_unsupported_type "field1" "banana" [] (by decide) (by decide) (by decide)
      (by decide) (by decide)⟩

theorem catchWrap_mcp (executionId : String) (c : ErrorCode) (m : String) :
    ∃ tail, catchWrap executionId (.mcp c m) = ⟨c, m ++ tail⟩ := by
  by_cases h : executionId.isEmpty
  · exact ⟨"", by simp [catchWrap, h]⟩
  · exact ⟨" (Make Execution ID: " ++ executionId ++ ")",
      by simp [catchWrap, h, String.append_assoc]⟩

theorem gate_false_of_success {run : RunResponse}
    (hgate : run.status = some "COMPLETED" ∨ run.status = some "OK") :
    (run.status != some "COMPLETED" && run.status != some "OK") = false := by
  rcases hgate with h | h <;> simp [h]

theorem invokeSrc_fetch_response (name : String) (env : InvokeEnv)
    (run : RunResponse) (r : FetchResponse)
    (hname : isValidToolName name = true)
    (hrun : env.runResult = .inr run)
    (hgate : run.status = some "COMPLETED" ∨ run.status = some "OK")
    (hfetch : env.fetchResult = .inr r) :
    invokeSrc name env =
      (match retrievePhase normalizeOutputSrc run.executionId r with
        | .inl e => .error (catchWrap run.executionId e)
        | .inr out => .ok ⟨out⟩, ⟨true, true⟩) := by
  simp only [invokeSrc, hname, hrun, gate_false_of_success hgate, hfetch]
  cases retrievePhase normalizeOutputSrc run.executionId r <;> simp

theorem invokePart_fetch_response (name : String) (env : InvokeEnv)
    (run : RunResponse) (r : FetchResponse)
    (hname : isValidToolName name = true)
    (hrun : env.runResult = .inr run)
    (hfetch : env.fetchResult = .inr r) :
    invokePart name env =
      (match retrievePhase normalizeOutputPart run.executionId r with
        | .inl e => .error (catchWrap run.executionId e)
        | .inr out => .ok ⟨out⟩, ⟨true, true⟩) := by
  simp only [invokePart, hname, hrun, hfetch]
  cases retrievePhase normalizeOutputPart run.executionId r <;> simp

/-- Claim C5: a call-tool request whose name fails the exact
`run_scenario_` + digits pattern fails with `InvalidRequest` naming the
unrecognized tool, and neither the trigger call nor the results fetch is
ever issued — in both handler variants. -/
theorem c5_invalid_name (name : String) (env : InvokeEnv)
    (h : isValidToolName name = false) :
    invokeSrc name env
      = (.error ⟨.InvalidRequest, "Unknown tool: " ++ name⟩, ⟨false, false⟩)
    ∧ invokePart name env
      = (.error ⟨.InvalidRequest, "Unknown tool: " ++ name⟩, ⟨false, false⟩) := by
  constructor <;> simp [invokeSrc, invokePart, h]

/-- Witness for C5 at the spec's example name `not_a_valid_name`. -/
theorem c5_invalid_name_witness :
    isValidToolName "not_a_valid_name" = false
    ∧ (invokeSrc "not_a_valid_name" ⟨.inr ⟨"e", some "OK"⟩, .inr ⟨200, "", .inr .null⟩⟩
        = (.error ⟨.InvalidRequest, "Unknown tool: " ++ "not_a_valid_name"⟩,
            ⟨false, false⟩)
      ∧ invokePart "not_a_valid_name" ⟨.inr ⟨"e", some "OK"⟩, .inr ⟨200, "", .inr .null⟩⟩
        = (.error ⟨.InvalidRequest, "Unknown tool: " ++ "not_a_valid_name"⟩,
            ⟨false, false⟩)) :=
  ⟨by decide, c5_invalid_name "not_a_valid_name" _ (by decide)⟩

/-- Claim C3: when the trigger succeeds (and, in the `src/index.ts` variant,
its status passes the gate) and the Results API answers 404, the invocation
fails with an `InternalError` whose message carries the execution id and the
"not found or expired" wording — and every other non-success status is
surfaced through the very same error kind (`InternalError`), so 404 is not a
special retryable case. -/
theorem c3_results_404 (name : String) (env : InvokeEnv)
    (run : RunResponse) (r : FetchResponse)
    (hname : isValidToolName name = true)
    (hrun : env.runResult = .inr run)
    (hgate : run.status = some "COMPLETED" ∨ run.status = some "OK")
    (hfetch : env.fetchResult = .inr r)
    (h404 : r.status = 404) :
    (∃ tail, (invokeSrc name env).1 = .error ⟨.InternalError,
      "Failed to retrieve results for execution ID " ++ run.executionId ++
        ": Result not found or expired (404). Detail: " ++ errorDetail r ++ tail⟩)
    ∧ (∃ tail, (invokePart name env).1 = .error ⟨.InternalError,
      "Failed to retrieve results for execution ID " ++ run.executionId ++
        ": Result not found or expired (404). Detail: " ++ errorDetail r ++ tail⟩)
    ∧ (∀ (eid : String) (r' : FetchResponse), r'.ok = false →
        retrievePhase normalizeOutputSrc eid r'
          = .inl (.mcp .InternalError (retrieveFailureMsg eid r'))) := by
  have hok : r.ok = false := by simp [FetchResponse.ok, h404]
  have hmsg : retrieveFailureMsg run.executionId r
      = "Failed to retrieve results for execution ID " ++ run.executionId ++
        ": Result not found or expired (404). Detail: " ++ errorDetail r := by
    simp [retrieveFailureMsg, h404]
  have hphase : ∀ (eid : String) (r' : FetchResponse), r'.ok = false →
      retrievePhase normalizeOutputSrc eid r'
        = .inl (.mcp .InternalError (retrieveFailureMsg eid r')) := by
    intro eid r' hok'
    simp [retrievePhase, hok']
  have hphasePart : retrievePhase normalizeOutputPart run.executionId r
      = .inl (.mcp .InternalError (retrieveFailureMsg run.executionId r)) := by
    simp [retrievePhase, hok]
  obtain ⟨tail, htail⟩ :=
    catchWrap_mcp run.executionId .InternalError (retrieveFailureMsg run.executionId r)
  rw [hmsg] at htail
  refine ⟨⟨tail, ?_⟩, ⟨tail, ?_⟩, hphase⟩
  · have hp := hphase run.executionId r hok
    rw [hmsg] at hp
    rw [invokeSrc_fetch_response name env run r hname hrun hgate hfetch, hp]
    simp [htail]
  · have hp := hphasePart
    rw [hmsg] at hp
    rw [invokePart_fetch_response name env run r hname hrun hfetch, hp]
    simp [htail]

/-- Witness for C3: tool `run_scenario_7`, trigger succeeds with execution
id `exec-123`, Results API answers 404 with unparseable body `gone`. -/
theorem c3_results_404_witness :
    isValidToolName "run_scenario_7" = true
    ∧ (((⟨"exec-123", some "OK"⟩ : RunResponse).status = some "COMPLETED")
        ∨ ((⟨"exec-123", some "OK"⟩ : RunResponse).status = some "OK"))
    ∧ ((∃ tail, (invokeSrc "run_scenario_7"
          ⟨.inr ⟨"exec-123", some "OK"⟩, .inr ⟨404, "gone", .inl "unparseable"⟩⟩).1
        = .error ⟨.InternalError,
            "Failed to retrieve results for execution ID " ++ "exec-123" ++
              ": Result not found or expired (404). Detail: " ++
              errorDetail ⟨404, "gone", .inl "unparseable"⟩ ++ tail⟩)
      ∧ (∃ tail, (invokePart "run_scenario_7"
          ⟨.inr ⟨"exec-123", some "OK"⟩, .inr ⟨404, "gone", .inl "unparseable"⟩⟩).1
        = .error ⟨.InternalError,
            "Failed to retrieve results for execution ID " ++ "exec-123" ++
              ": Result not found or expired (404). Detail: " ++
              errorDetail ⟨404, "gone", .inl "unparseable"⟩ ++ tail⟩)
      ∧ (∀ (eid : String) (r' : FetchResponse), r'.ok = false →
          retrievePhase normalizeOutputSrc eid r'
            = .inl (.mcp .InternalError (retrieveFailureMsg eid r')))) :=
  ⟨by decide, Or.inr rfl,
    c3_results_404 "run_scenario_7" _ ⟨"exec-123", some "OK"⟩
      ⟨404, "gone", .inl "unparseable"⟩ (by decide) rfl (Or.inr rfl) rfl rfl⟩

/-- Counterexample to claim C6: with valid tool name `run_scenario_5` and a
trigger failure `Error("network failure")`, the `src/index.ts` variant
throws an `InternalError` whose message is exactly the cause's message,
which contains no occurrence of the scenario identifier `5` (no sublist of
its characters equals `"5"`, since the digit does not occur at all). -/
theorem c6_counterexample :
    (invokeSrc "run_scenario_5"
        ⟨.inl (.plain "network failure"), .inr ⟨200, "", .inr .null⟩⟩).1
      = .error ⟨.InternalError, "network failure"⟩
    ∧ ¬ List.IsInfix "5".data "network failure".data := by
  refine ⟨rfl, by decide⟩

/-- Claim C6 amended: when the trigger call itself throws an `Error` with
message `m`, both variants fail with an `InternalError` whose message is
exactly `m` — the underlying cause — and the results fetch is never issued.
The scenario identifier goes to the log line only, not into the thrown
error's message, and no execution id suffix is appended since none exists
yet. -/
theorem c6_trigger_failure (name : String) (env : InvokeEnv) (m : String)
    (hname : isValidToolName name = true)
    (hrun : env.runResult = .inl (.plain m)) :
    invokeSrc name env = (.error ⟨.InternalError, m⟩, ⟨true, false⟩)
    ∧ invokePart name env = (.error ⟨.InternalError, m⟩, ⟨true, false⟩) := by
  have hcw : catchWrap "" (.plain m) = ⟨.InternalError, m⟩ := rfl
  constructor <;> simp [invokeSrc, invokePart, hname, hrun, hcw]

/-- Witness for the amended C6. -/
theorem c6_trigger_failure_witness :
    isValidToolName "run_scenario_5" = true
    ∧ (invokeSrc "run_scenario_5"
          ⟨.inl (.plain "remote rejection"), .inr ⟨200, "", .inr .null⟩⟩
        = (.error ⟨.InternalError, "remote rejection"⟩, ⟨true, false⟩)
      ∧ invokePart "run_scenario_5"
          ⟨.inl (.plain "remote rejection"), .inr ⟨200, "", .inr .null⟩⟩
        = (.error ⟨.InternalError, "remote rejection"⟩, ⟨true, false⟩)) :=
  ⟨by decide, c6_trigger_failure "run_scenario_5" _ "remote rejection" (by decide) rfl⟩

/-- Claim C10: in the `src/index.ts` variant a successful trigger whose run
`status` is neither `COMPLETED` nor `OK` (an absent status included) throws
an `InternalError` whose message carries the displayed status
(`status || 'Unknown'`) and the execution id, and the Results API is never
contacted; the `unnamed/part_000` variant has no such gate and always
proceeds to the results fetch after a successful trigger. -/
theorem c10_status_gate (name : String) (env : InvokeEnv) (run : RunResponse)
    (hname : isValidToolName name = true)
    (hrun : env.runResult = .inr run)
    (hc : run.status ≠ some "COMPLETED") (hok : run.status ≠ some "OK") :
    (∃ tail, (invokeSrc name env).1 = .error ⟨.InternalError,
      "Make scenario execution failed internally with status: " ++
        statusDisplay run.status ++ ". Execution ID: " ++ run.executionId ++ tail⟩)
    ∧ (invokeSrc name env).2 = ⟨true, false⟩
    ∧ (invokePart name env).2 = ⟨true, true⟩ := by
  have hgateb : (run.status != some "COMPLETED" && run.status != some "OK") = true := by
    simp [hc, hok]
  obtain ⟨tail, htail⟩ := catchWrap_mcp run.executionId .InternalError
    ("Make scenario execution failed internally with status: " ++
      statusDisplay run.status ++ ". Execution ID: " ++ run.executionId)
  refine ⟨⟨tail, ?_⟩, ?_, ?_⟩
  · simp [invokeSrc, hname, hrun, hgateb, htail]
  · simp [invokeSrc, hname, hrun, hgateb]
  · cases hf : env.fetchResult with
    | inl e => simp [invokePart, hname, hrun, hf]
    | inr r => rw [invokePart_fetch_response name env run r hname hrun hf]

/-- Witness for C10 at status `ERROR`. -/
theorem c10_status_gate_witness :
    isValidToolName "run_scenario_9" = true
    ∧ (some "ERROR" : Option String) ≠ some "COMPLETED"
    ∧ (some "ERROR" : Option String) ≠ some "OK"
    ∧ ((∃ tail, (invokeSrc "run_scenario_9"
          ⟨.inr ⟨"exec-9", some "ERROR"⟩, .inr ⟨200, "", .inr .null⟩⟩).1
        = .error ⟨.InternalError,
            "Make scenario execution failed internally with status: " ++
              statusDisplay (some "ERROR") ++ ". Execution ID: " ++ "exec-9" ++ tail⟩)
      ∧ (invokeSrc "run_scenario_9"
            ⟨.inr ⟨"exec-9", some "ERROR"⟩, .inr ⟨200, "", .inr .null⟩⟩).2
          = ⟨true, false⟩
      ∧ (invokePart "run_scenario_9"
            ⟨.inr ⟨"exec-9", some "ERROR"⟩, .inr ⟨200, "", .inr .null⟩⟩).2
          = ⟨true, true⟩) :=
  ⟨by decide, by decide, by decide,
    c10_status_gate "run_scenario_9" _ ⟨"exec-9", some "ERROR"⟩ (by decide) rfl
      (by decide) (by decide)⟩

/-- Counterexample to claim C1 (in the `src/index.ts` variant): a Results
API body `{"output": "done"}` yields `toolResult` `"\"done\""` — the JSON
re-serialization of the string, quotes included — not the verbatim string
`done` the claim requires. -/
theorem c1_counterexample :
    (invokeSrc "run_scenario_1"
        ⟨.inr ⟨"e1", some "OK"⟩,
          .inr ⟨200, "", .inr (.obj [("output", .str "done")])⟩⟩).1
      = .ok ⟨"\"done\""⟩
    ∧ "\"done\"" ≠ "done" := by
  refine ⟨rfl, by decide⟩

/-- Claim C1 amended: the `unnamed/part_000` variant implements the claimed
normalization exactly (absent or null output → the fixed placeholder, a
string verbatim, any other value its 2-space-indented JSON serialization);
the `src/index.ts` variant keeps the placeholder only for an absent
`output` and serializes every present value — null and strings included —
with `JSON.stringify(·, null, 2)`. -/
theorem c1_output_normalization (name : String) (env : InvokeEnv)
    (run : RunResponse) (r : FetchResponse) (j : Json)
    (hname : isValidToolName name = true)
    (hrun : env.runResult = .inr run)
    (hgate : run.status = some "COMPLETED" ∨ run.status = some "OK")
    (hfetch : env.fetchResult = .inr r)
    (hok : r.ok = true) (hjson : r.json = .inr j) :
    (invokePart name env).1 = .ok ⟨normalizeOutputPart (j.getField "output")⟩
    ∧ (invokeSrc name env).1 = .ok ⟨normalizeOutputSrc (j.getField "output")⟩
    ∧ (∀ s, j.getField "output" = some (.str s) →
        normalizeOutputPart (j.getField "output") = s)
    ∧ ((j.getField "output" = none ∨ j.getField "output" = some .null) →
        normalizeOutputPart (j.getField "output")
          = "(No output data received from results API)")
    ∧ (∀ v, j.getField "output" = some v → v ≠ .null → (∀ s, v ≠ .str s) →
        normalizeOutputPart (j.getField "output") = stringify2 v)
    ∧ (∀ v, j.getField "output" = some v →
        normalizeOutputSrc (j.getField "output") = stringify2 v)
    ∧ (j.getField "output" = none →
        normalizeOutputSrc (j.getField "output")
          = "(No output data received from results API)") := by
  have hphase : ∀ nf : Option Json → String,
      retrievePhase nf run.executionId r = .inr (nf (j.getField "output")) := by
    intro nf
    simp [retrievePhase, hok, hjson]
  refine ⟨?_, ?_, ?_, ?_, ?_, ?_, ?_⟩
  · rw [invokePart_fetch_response name env run r hname hrun hfetch, hphase]
  · rw [invokeSrc_fetch_response name env run r hname hrun hgate hfetch, hphase]
  · intro s h; rw [h]; rfl
  · rintro (h | h) <;> rw [h] <;> rfl
  · intro v h hnull hnstr
    rw [h]
    cases v with
    | null => exact absurd rfl hnull
    | str s => exact absurd rfl (hnstr s)
    | bool b => rfl
    | num k => rfl
    | arr xs => rfl
    | obj kvs => rfl
  · intro v h; rw [h]; rfl
  · intro h; rw [h]; rfl

/-- Witness for the amended C1 at the spec's example `{"output": {"x": 1}}`. -/
theorem c1_output_normalization_witness :
    isValidToolName "run_scenario_3" = true
    ∧ (⟨200, "", .inr (.obj [("output", .obj [("x", .num 1)])])⟩ : FetchResponse).ok
        = true
    ∧ ((invokePart "run_scenario_3" ⟨.inr ⟨"e2", some "COMPLETED"⟩,
          .inr ⟨200, "", .inr (.obj [("output", .obj [("x", .num 1)])])⟩⟩).1
        = .ok ⟨normalizeOutputPart
            ((Json.obj [("output", .obj [("x", .num 1)])]).getField "output")⟩
      ∧ (invokeSrc "run_scenario_3" ⟨.inr ⟨"e2", some "COMPLETED"⟩,
          .inr ⟨200, "", .inr (.obj [("output", .obj [("x", .num 1)])])⟩⟩).1
        = .ok ⟨normalizeOutputSrc
            ((Json.obj [("output", .obj [("x", .num 1)])]).getField "output")⟩
      ∧ (∀ s, (Json.obj [("output", .obj [("x", .num 1)])]).getField "output"
            = some (.str s) →
          normalizeOutputPart
            ((Json.obj [("output", .obj [("x", .num 1)])]).getField "output") = s)
      ∧ (((Json.obj [("output", .obj [("x", .num 1)])]).getField "output" = none
            ∨ (Json.obj [("output", .obj [("x", .num 1)])]).getField "output"
              = some .null) →
          normalizeOutputPart
            ((Json.obj [("output", .obj [("x", .num 1)])]).getField "output")
            = "(No output data received from results API)")
      ∧ (∀ v, (Json.obj [("output", .obj [("x", .num 1)])]).getField "output"
            = some v → v ≠ .null → (∀ s, v ≠ .str s) →
          normalizeOutputPart
            ((Json.obj [("output", .obj [("x", .num 1)])]).getField "output")
            = stringify2 v)
      ∧ (∀ v, (Json.obj [("output", .obj [("x", .num 1)])]).getField "output"
            = some v →
          normalizeOutputSrc
            ((Json.obj [("output", .obj [("x", .num 1)])]).getField "output")
            = stringify2 v)
      ∧ ((Json.obj [("output", .obj [("x", .num 1)])]).getField "output" = none →
          normalizeOutputSrc
            ((Json.obj [("output", .obj [("x", .num 1)])]).getField "output")
            = "(No output data received from results API)")) :=
  ⟨by decide, by decide,
    c1_output_normalization "run_scenario_3" _ ⟨"e2", some "COMPLETED"⟩
      ⟨200, "", .inr (.obj [("output", .obj [("x", .num 1)])])⟩
      (.obj [("output", .obj [("x", .num 1)])])
      (by decide) rfl (Or.inl rfl) rfl (by decide) rfl⟩
